import Mathlib

/-!
Shallow embedding of the wowpdf backend (src/main.py), a FastAPI service of
PDF tools, together with proofs about its handlers. The handlers are
modelled as pure functions from the request data (filenames, form fields,
and the document the staged bytes parse to) to a record of the observable
outcome: the HTTP status of the response or raised HTTPException, the files
the handler wrote, and the staged input paths still present when it exits.
The external pypdf/PIL/reportlab codecs are black boxes, abstracted by
oracles (e.g. whether a merger.append call succeeds) and by the `PdfDoc`
view of a parsed document; Python strings are modelled as `String`, with
the `str` operations the handlers use reimplemented over `List Char` so
that every definition evaluates inside Lean's kernel.
-/

namespace Wowpdf

/-- ASCII lowering of one character, as Python str.lower acts on ASCII
letters (the filenames and form values the handlers compare are ASCII;
non-ASCII case folding is not modelled). -/
def lowerChar (c : Char) : Char :=
  if 'A' ≤ c && c ≤ 'Z' then Char.ofNat (c.toNat + 32) else c

/-- Python str.endswith: the last p.length characters of l equal p (false
when p is longer than l, since then the full l is compared against p). -/
def endsWithChars (l p : List Char) : Bool :=
  (l.drop (l.length - p.length)) == p

/-- The check `file.filename.lower().endswith('.pdf')` that opens every
document handler (main.py lines 78, 114, 176, 228, 289, 394, 438, ...). -/
def isPdfName (s : String) : Bool :=
  endsWithChars (s.data.map lowerChar) ".pdf".data

/-- Does p occur as a contiguous run at the front of the second list. -/
def startsWithChars : List Char → List Char → Bool
  | [], _ => true
  | _ :: _, [] => false
  | p :: ps, c :: cs => p = c && startsWithChars ps cs

/-- Does p occur as a contiguous run anywhere in the list: the Python
substring test `p in s`. -/
def containsRun (p : List Char) : List Char → Bool
  | [] => p.isEmpty
  | c :: t => startsWithChars p (c :: t) || containsRun p t

/-- Python `sub in s` on strings. -/
def containsStr (s sub : String) : Bool :=
  containsRun sub.data s.data

/-- Python str.split(sep) for a single-character separator, as used on the
`pages` form field (split on the comma, then each part on the hyphen).
Splitting the empty string yields one empty piece, as in Python. -/
def splitOnChar (sep : Char) : List Char → List (List Char)
  | [] => [[]]
  | c :: cs =>
    let r := splitOnChar sep cs
    if c = sep then [] :: r
    else
      match r with
      | [] => [[c]]
      | h :: t => (c :: h) :: t

/-- ASCII whitespace stripped by Python int() around a numeric literal. -/
def isSpaceChar (c : Char) : Bool :=
  c = ' ' || c = '\t' || c = '\n' || c = '\r'

/-- Strip surrounding ASCII whitespace. -/
def trimChars (l : List Char) : List Char :=
  ((l.dropWhile isSpaceChar).reverse.dropWhile isSpaceChar).reverse

/-- Value of one decimal digit. -/
def digitVal (c : Char) : Option Nat :=
  if c.isDigit then some (c.toNat - 48) else none

/-- Value of a nonempty all-digit string; none otherwise. -/
def digitsToNat (l : List Char) : Option Nat :=
  match l with
  | [] => none
  | _ =>
    l.foldl
      (fun acc c =>
        match acc, digitVal c with
        | some n, some d => some (n * 10 + d)
        | _, _ => none)
      (some 0)

/-- Python int() on a decimal string: surrounding whitespace and one
optional sign are accepted, otherwise the string must be nonempty digits.
Returns none exactly where int() raises ValueError. (PEP 515 underscore
separators and non-ASCII digits are not modelled.) -/
def pyInt? (l : List Char) : Option Int :=
  match trimChars l with
  | '-' :: rest => (digitsToNat rest).map (fun n => -(n : Int))
  | '+' :: rest => (digitsToNat rest).map (fun n => (n : Int))
  | t => (digitsToNat t).map (fun n => (n : Int))

/-- Python range(a, b) over the integers: a, a+1, ..., b-1 (empty when
b ≤ a). -/
def pyRange (a b : Int) : List Int :=
  (List.range (b - a).toNat).map (fun k => a + (k : Int))

/-- One comma-separated piece of the `pages` form field, as handled by the
loop shared by split_pdf (main.py lines 130-135) and rotate_pdf (lines
250-255): a piece containing a hyphen is `start, end = map(int, part.split('-'))`
then `range(start - 1, min(end, total_pages))`; any other piece is
`int(part) - 1`. A piece that fails int() or does not split into exactly
two numbers raises ValueError; the model's error messages stand in for
Python's (only the fact of the error reaches the client, as a 500). -/
def parseRangePart (part : List Char) (totalPages : Nat) : Except String (List Int) :=
  if part.contains '-' then
    match splitOnChar '-' part with
    | [a, b] =>
      match pyInt? a, pyInt? b with
      | some s, some e => .ok (pyRange (s - 1) (min e (totalPages : Int)))
      | _, _ => .error "invalid literal for int() with base 10"
    | _ => .error "cannot unpack values"
  else
    match pyInt? part with
    | some v => .ok [v - 1]
    | none => .error "invalid literal for int() with base 10"

/-- The comma loop over a nonempty `pages` string, accumulating the parsed
zero-based indices in order (split_pdf lines 129-135; rotate_pdf collects
the same numbers into a set, lines 249-255). -/
def parsePartsList (pages : List Char) (totalPages : Nat) : Except String (List Int) :=
  (splitOnChar ',' pages).foldlM
    (fun acc part => do
      let ns ← parseRangePart part totalPages
      pure (acc ++ ns))
    []

/-- The `pages` handling of split_pdf (main.py lines 126-137): an empty
(falsy) string selects every page of the document; otherwise the
comma-separated range grammar. -/
def parsePages (pages : String) (totalPages : Nat) : Except String (List Int) :=
  if pages.data.isEmpty then .ok ((List.range totalPages).map (fun n => (n : Int)))
  else parsePartsList pages.data totalPages

/-- The guard `if 0 <= page_num < total_pages` of split_pdf (main.py line
141): parsed indices outside the document are skipped without an error. -/
def usedPages (nums : List Int) (totalPages : Nat) : List Int :=
  nums.filter (fun p => decide (0 ≤ p) && decide (p < (totalPages : Int)))

/-- One file of a multipart upload: the client-supplied filename. The raw
bytes are staged verbatim and read only by the external codec, which the
handler models abstract with oracles or a parsed `PdfDoc`. -/
structure UploadFile where
  filename : String
deriving DecidableEq

/-- What the handlers observe of a staged document through the pypdf codec:
its page list (pages carry opaque content ids), whether it is encrypted,
and, when it is, the password that reader.decrypt accepts. -/
structure PdfDoc where
  pages : List Nat
  encrypted : Bool
  password : String
deriving DecidableEq

/-- Outcome of one merge_pdfs invocation: the HTTP status returned or of the
HTTPException raised (FastAPI renders an uncaught HTTPException as a
response with that status code), the staged paths still present in the
incoming zone when the handler exits, and whether the merged output file
was written. -/
structure MergeEnd where
  status : Nat
  stagedRemaining : List Nat
  outputWritten : Bool
deriving DecidableEq

/-- The per-file loop of merge_pdfs (main.py lines 77-86); staged paths are
numbered by position in the upload. appendOk i abstracts whether the
external merger.append call on the i-th staged file succeeds; when it
raises, the loop exits with the staged paths written so far. A non-PDF
filename raises HTTPException(400) from inside the try block (line 79),
also carrying the staged paths written before it. -/
def mergeLoop (appendOk : Nat → Bool) :
    List UploadFile → Nat → List Nat → Except (Nat × List Nat) (List Nat)
  | [], _, staged => .ok staged
  | f :: rest, i, staged =>
    if isPdfName f.filename then
      if appendOk i then mergeLoop appendOk rest (i + 1) (staged ++ [i])
      else .error (500, staged ++ [i])
    else .error (400, staged)

/-- merge_pdfs (main.py lines 67-105). The file-count check (line 70) runs
before the try block. Every exception raised inside the try block — the
wrong-file-type HTTPException(400) of line 79 included — is caught by the
handler-wide `except Exception` (line 104) and re-raised as a 500; on those
exits the temp files staged so far are never unlinked. writeOk abstracts
whether merger.write on the output path succeeds; the temp-file unlink loop
(lines 94-95) runs only after a successful write. -/
def merge_pdfs (files : List UploadFile) (appendOk : Nat → Bool) (writeOk : Bool) :
    MergeEnd :=
  if files.length < 2 then ⟨400, [], false⟩
  else
    match mergeLoop appendOk files 0 [] with
    | .error (_, staged) => ⟨500, staged, false⟩
    | .ok staged => if writeOk then ⟨200, [], true⟩ else ⟨500, staged, false⟩

/-- Outcome of one split_pdf invocation: response status, staged input paths
still present at exit, and how many single-page output files were written
to the generated zone. -/
structure SplitEnd where
  status : Nat
  stagedRemaining : List Nat
  outputsWritten : Nat
deriving DecidableEq

/-- split_pdf (main.py lines 108-167). The extension check (line 114) runs
before the try block and before the staged write (lines 118-121); the
staged upload is modelled as path 0. doc = none models PdfReader raising on
the staged bytes. Inside the try block every exception becomes a 500 via
lines 166-167, with the staged input leaked; the "No valid pages to split"
HTTPException(400) of line 164 is also raised inside the try block and so
surfaces as a 500, though by then line 154 has already unlinked the staged
input. One output file is written per in-bounds parsed index (lines
140-152). -/
def split_pdf (filename pages : String) (doc : Option PdfDoc) : SplitEnd :=
  if isPdfName filename then
    match doc with
    | none => ⟨500, [0], 0⟩
    | some d =>
      match parsePages pages d.pages.length with
      | .error _ => ⟨500, [0], 0⟩
      | .ok nums =>
        if (usedPages nums d.pages.length).length > 0 then
          ⟨200, [], (usedPages nums d.pages.length).length⟩
        else ⟨500, [], 0⟩
  else ⟨400, [], 0⟩

/-- Outcome of one rotate_pdf invocation: response status, total number of
files the handler wrote anywhere (staged upload plus output), and staged
paths still present at exit. -/
structure RotateEnd where
  status : Nat
  filesWritten : Nat
  stagedRemaining : List Nat
deriving DecidableEq

/-- The angle whitelist of rotate_pdf (main.py line 231). -/
def allowedAngles : List Int := [90, 180, 270, -90, -180, -270]

/-- rotate_pdf (main.py lines 221-277). Both validations — extension (line
228) and angle (line 231) — run before the try block and hence before the
staged write of lines 235-238. `pages` defaults to "all" (compared after
str.lower); any other string goes through the same range grammar as
split_pdf but with no empty-string case, and a parse failure inside the try
block surfaces as a 500 with the staged file leaked. The rotation applied
to the selected pages is a codec call and is not further modelled. -/
def rotate_pdf (filename : String) (angle : Int) (pages : String)
    (doc : Option PdfDoc) : RotateEnd :=
  if isPdfName filename then
    if angle ∈ allowedAngles then
      match doc with
      | none => ⟨500, 1, [0]⟩
      | some d =>
        match
          (if (pages.data.map lowerChar) == "all".data then
            Except.ok ((List.range d.pages.length).map (fun n => (n : Int)))
          else parsePartsList pages.data d.pages.length) with
        | .error _ => ⟨500, 1, [0]⟩
        | .ok _ => ⟨200, 2, []⟩
    else ⟨400, 0, []⟩
  else ⟨400, 0, []⟩

/-- Outcome of one protect_pdf invocation: response status and how many
input files were staged to the incoming zone. -/
structure ProtectEnd where
  status : Nat
  stagedWrites : Nat
deriving DecidableEq

/-- protect_pdf (main.py lines 388-429). Both validations run before the try
block and hence before the staged write of lines 401-404: the extension
check (line 394) and the password check (line 397, `not password or
len(password) < 4`, equivalent to len(password) < 4 since the empty string
has length 0). doc = none models PdfReader raising on the staged bytes. -/
def protect_pdf (filename password : String) (doc : Option PdfDoc) : ProtectEnd :=
  if isPdfName filename then
    if password.length < 4 then ⟨400, 0⟩
    else
      match doc with
      | none => ⟨500, 1⟩
      | some _ => ⟨200, 1⟩
  else ⟨400, 0⟩

/-- Outcome of one unlock_pdf invocation: response status, whether an output
file was written to the generated zone, and the page list of that output
when it exists. -/
structure UnlockEnd where
  status : Nat
  outputWritten : Bool
  outputPages : Option (List Nat)
deriving DecidableEq

/-- unlock_pdf (main.py lines 432-474). reader.decrypt(password) is modelled
as succeeding exactly on the document's password. The decrypt check (lines
449-451) runs only when the document is encrypted; an unencrypted document
skips it entirely, so the supplied password is never inspected. This
handler re-raises HTTPException unchanged (lines 471-472), so the
wrong-password 400 of line 451 reaches the client as a 400, and it is
raised before the writer is populated or any output file opened (lines
453-461). -/
def unlock_pdf (filename password : String) (doc : PdfDoc) : UnlockEnd :=
  if isPdfName filename then
    if doc.encrypted then
      if password = doc.password then ⟨200, true, some doc.pages⟩
      else ⟨400, false, none⟩
    else ⟨200, true, some doc.pages⟩
  else ⟨400, false, none⟩

/-- A raster image as PIL's Image.new builds it for this handler: a canvas
of the given size filled with one constant color. -/
structure RasterImage where
  width : Nat
  height : Nat
  fillColor : String
deriving DecidableEq

/-- The image pdf_to_images builds (main.py line 304): Image.new('RGB',
(612, 792), color='white') — a constant blank canvas onto which no page
content is ever drawn (the code comments it is a placeholder for a real
pdf2image rendering). -/
def placeholderImage : RasterImage := ⟨612, 792, "white"⟩

/-- Outcome of one pdf_to_images invocation: response status, the image
written and returned, and the format it was saved in. -/
structure ImagesEnd where
  status : Nat
  image : Option RasterImage
  savedFormat : Option String
deriving DecidableEq

/-- pdf_to_images (main.py lines 282-321). doc = none models PdfReader
raising on the staged bytes; reader.pages[0] (line 301) raises IndexError
on a zero-page document, surfacing as 500. saveOk abstracts whether PIL
recognizes format.upper() in its save registry: img.save (line 309) raises
on an unknown format before any image bytes are written, and the
handler-wide except converts that to a 500 with no image returned.
Otherwise the constant placeholder image is saved in the requested format
and returned; the first page is accessed only by indexing it. -/
def pdf_to_images (filename : String) (doc : Option PdfDoc) (format : String)
    (saveOk : Bool) : ImagesEnd :=
  if isPdfName filename then
    match doc with
    | none => ⟨500, none, none⟩
    | some d =>
      match d.pages with
      | [] => ⟨500, none, none⟩
      | _ :: _ =>
        if saveOk then ⟨200, some placeholderImage, some format⟩
        else ⟨500, none, none⟩
  else ⟨400, none, none⟩

/-- reportlab's letter page size is (612.0, 792.0) points; both coordinates
the handler computes from it are exact integers, so Nat suffices. -/
def letterWidth : Nat := 612

/-- Height of the letter page size in points. -/
def letterHeight : Nat := 792

/-- Y coordinate of the page-number overlay (main.py lines 568-571):
30 when the position string contains "bottom", letter height minus 30
otherwise. -/
def overlayY (position : String) : Nat :=
  if containsStr position "bottom" then 30 else letterHeight - 30

/-- X coordinate of the page-number overlay (main.py lines 573-578): half
the letter width when the position string contains "center", width minus 50
when it contains "right", 50 otherwise. -/
def overlayX (position : String) : Nat :=
  if containsStr position "center" then letterWidth / 2
  else if containsStr position "right" then letterWidth - 50
  else 50

/-- One page-number overlay: the text drawn (as a number) and the point it
is centred on. -/
structure Overlay where
  numberText : Int
  x : Nat
  y : Nat
deriving DecidableEq

/-- The overlays add_page_numbers (main.py lines 559-586) draws, one per
page in document order: the page at zero-based index i gets the number
start_from + i, drawn centred at (overlayX position, overlayY position). -/
def add_page_numbers (doc : PdfDoc) (position : String) (startFrom : Int) :
    List Overlay :=
  (List.range doc.pages.length).map
    (fun (i : Nat) => ⟨startFrom + (i : Int), overlayX position, overlayY position⟩)

/-- Python Path.unlink with no arguments: removes the file, raising
FileNotFoundError when the path does not exist. The Bool result is whether
the path exists afterwards. -/
def unlinkPath (pathExists : Bool) : Except String Bool :=
  if pathExists then .ok false else .error "FileNotFoundError"

/-- Body of delete_after_delay once its sleep elapses (main.py lines 50-51):
the unlink is guarded by an existence check, so a path already removed is
left alone without an error. -/
def delete_after_delay (pathExists : Bool) : Except String Bool :=
  if pathExists then unlinkPath pathExists else .ok pathExists

/-- The default retention delay of cleanup_file (main.py line 46), in
seconds; every call site in main.py uses the default. -/
def cleanupDelay : Nat := 300

/-- Timeline of one artifact registered with cleanup_file at time t0: the
path exists at registration; removedEarly says whether some other actor
removed it before the scheduled task fired; the task body runs once
t0 + delay has elapsed. The result is the existence of the path as observed
at time t, or the error the scheduled task raised. -/
def retentionObserved (removedEarly : Bool) (t0 delay t : Nat) :
    Except String Bool :=
  if t0 + delay ≤ t then delete_after_delay (!removedEarly) else .ok (!removedEarly)

/-- C1 counterexample. The spec claims every staged input file is deleted by
the end of the handler's execution on every path, error exits included. The
merge invocation that uploads a valid "a.pdf" followed by a non-PDF "b.txt"
(every codec append succeeding) takes the error exit of main.py line 79
after staging "a.pdf", and the handler exits with that staged copy still
present in the incoming zone: the unlink loop of lines 94-95 is never
reached and no finally/except clause removes temp files. -/
theorem merge_error_exit_leaks_staged_file :
    (merge_pdfs [⟨"a.pdf"⟩, ⟨"b.txt"⟩] (fun _ => true) true).stagedRemaining = [0]
    ∧ (merge_pdfs [⟨"a.pdf"⟩, ⟨"b.txt"⟩] (fun _ => true) true).status = 500 := by
  decide

/-- C1 (amended): staged input files are all deleted on the successful
execution path of merge_pdfs and split_pdf (split_pdf also unlinks its
staged input on the empty-result exit), but not on error exits inside the
try blocks, where the staged files written so far are leaked. -/
theorem staged_input_deleted_on_success :
    (∀ (files : List UploadFile) (appendOk : Nat → Bool) (writeOk : Bool),
        (merge_pdfs files appendOk writeOk).status = 200 →
        (merge_pdfs files appendOk writeOk).stagedRemaining = [])
    ∧ (∀ (filename pages : String) (doc : Option PdfDoc),
        (split_pdf filename pages doc).status = 200 →
        (split_pdf filename pages doc).stagedRemaining = []) := by
  constructor
  · intro files appendOk writeOk
    unfold merge_pdfs
    split
    · intro _; rfl
    · split
      · intro h; simp at h
      · split
        · intro _; rfl
        · intro h; simp at h
  · intro filename pages doc
    unfold split_pdf
    split
    · split
      · intro h; simp at h
      · split
        · intro h; simp at h
        · split
          · intro _; rfl
          · intro _; rfl
    · intro h; simp at h

/-- C1 witness: a successful merge of two PDFs leaves no staged input. -/
theorem staged_input_deleted_on_success_witness :
    (merge_pdfs [⟨"a.pdf"⟩, ⟨"b.pdf"⟩] (fun _ => true) true).status = 200
    ∧ (merge_pdfs [⟨"a.pdf"⟩, ⟨"b.pdf"⟩] (fun _ => true) true).stagedRemaining = [] :=
  ⟨by decide,
   staged_input_deleted_on_success.1 [⟨"a.pdf"⟩, ⟨"b.pdf"⟩] (fun _ => true) true
     (by decide)⟩

/-- C2 counterexample. The spec claims every client input error is surfaced
as a 4xx response. The wrong-file-type error on merge's second file is a
client input error, yet it surfaces with status 500: the HTTPException(400)
of main.py line 79 is raised inside the try block and re-raised as a 500 by
the catch-all except of lines 104-105. -/
theorem merge_wrong_type_surfaces_500 :
    (merge_pdfs [⟨"a.pdf"⟩, ⟨"b.txt"⟩] (fun _ => true) true).status = 500 := by
  decide

/-- C2 (amended): validation failures checked before a handler's try block
surface as 400 — merge's file-count check is its only 400 (so a wrong file
type inside merge's loop surfaces as 500), split's extension check is a
400, and unlock re-raises its wrong-password 400 — while client input
errors detected inside a try block, such as a malformed range string in
split, surface as 500. -/
theorem error_status_classification :
    (∀ (files : List UploadFile) (appendOk : Nat → Bool) (writeOk : Bool),
        (merge_pdfs files appendOk writeOk).status = 400 ↔ files.length < 2)
    ∧ (∀ (filename pages : String) (doc : Option PdfDoc),
        isPdfName filename = false → (split_pdf filename pages doc).status = 400)
    ∧ (∀ (filename pages : String) (d : PdfDoc) (msg : String),
        isPdfName filename = true →
        parsePages pages d.pages.length = .error msg →
        (split_pdf filename pages (some d)).status = 500)
    ∧ (∀ (filename password : String) (doc : PdfDoc),
        doc.encrypted = true → password ≠ doc.password →
        (unlock_pdf filename password doc).status = 400) := by
  refine ⟨?_, ?_, ?_, ?_⟩
  · intro files appendOk writeOk
    unfold merge_pdfs
    split
    · rename_i hlt
      simp [hlt]
    · rename_i hge
      split
      · simp [hge]
      · split
        · simp [hge]
        · simp [hge]
  · intro filename pages doc hfn
    simp [split_pdf, hfn]
  · intro filename pages d msg hfn hparse
    simp [split_pdf, hfn, hparse]
  · intro filename password doc henc hpw
    by_cases hfn : isPdfName filename = true <;> simp [unlock_pdf, hfn, henc, hpw]

/-- C2 witness: the four classifications at concrete requests — too few
merge files is a 400, a non-PDF split upload is a 400, a malformed range
string in split is a 500, and a wrong unlock password is a 400. -/
theorem error_status_classification_witness :
    (merge_pdfs [] (fun _ => true) true).status = 400
    ∧ (split_pdf "a.txt" "" (some ⟨[0], false, ""⟩)).status = 400
    ∧ (split_pdf "a.pdf" "x" (some ⟨[0], false, ""⟩)).status = 500
    ∧ (unlock_pdf "a.pdf" "guess" ⟨[0], true, "secret"⟩).status = 400 :=
  ⟨(error_status_classification.1 [] (fun _ => true) true).mpr (by decide),
   error_status_classification.2.1 "a.txt" "" (some ⟨[0], false, ""⟩) (by decide),
   error_status_classification.2.2.1 "a.pdf" "x" ⟨[0], false, ""⟩
     "invalid literal for int() with base 10" (by decide) rfl,
   error_status_classification.2.2.2 "a.pdf" "guess" ⟨[0], true, "secret"⟩ rfl
     (by decide)⟩

/-- C3: the page-range grammar of split_pdf. "1-3,5,7-9" on a 10-page
document parses to the zero-based indices [0,1,2,4,6,7,8]; "8-20" on a
10-page document is clamped so its largest index is the last valid index 9;
the empty string selects all pages of any document; an out-of-range single
index ("15" on 10 pages) parses without error and is then silently dropped
by the bounds guard; and every index the guard keeps is within bounds. -/
theorem page_range_parsing_spec :
    parsePages "1-3,5,7-9" 10 = .ok [0, 1, 2, 4, 6, 7, 8]
    ∧ parsePages "8-20" 10 = .ok [7, 8, 9]
    ∧ (∀ total : Nat,
        parsePages "" total = .ok ((List.range total).map (fun n => (n : Int))))
    ∧ (parsePages "15" 10 = .ok [14] ∧ usedPages [14] 10 = [])
    ∧ ∀ (nums : List Int) (total : Nat) (p : Int),
        p ∈ usedPages nums total → 0 ≤ p ∧ p < (total : Int) := by
  refine ⟨rfl, rfl, fun total => rfl, ⟨rfl, by decide⟩, ?_⟩
  intro nums total p hp
  unfold usedPages at hp
  rw [List.mem_filter] at hp
  simpa using hp.2

/-- C3 witness: the in-bounds guarantee applied to index 7 kept from the
clamped parse of "8-20" on a 10-page document. -/
theorem page_range_parsing_spec_witness :
    0 ≤ (7 : Int) ∧ (7 : Int) < ((10 : Nat) : Int) :=
  page_range_parsing_spec.2.2.2.2 [7, 8, 9] 10 7 (by decide)

/-- C4: for an artifact registered with cleanup_file at time t0, once time
advances past the default 300-second delay the path no longer exists, and
the scheduled deletion raises no error whether or not the path was removed
before the delay elapsed — in the early-removal case delete_after_delay's
existence guard makes the fire a no-op. -/
theorem retention_deletes_after_delay (removedEarly : Bool) (t0 t : Nat)
    (h : t0 + cleanupDelay < t) :
    retentionObserved removedEarly t0 cleanupDelay t = .ok false := by
  unfold retentionObserved
  rw [if_pos (Nat.le_of_lt h)]
  cases removedEarly <;> rfl

/-- C4 witness: at time 301 an artifact registered at time 0 is gone without
error, both when it survived to the fire and when it was removed early. -/
theorem retention_deletes_after_delay_witness :
    retentionObserved true 0 cleanupDelay 301 = .ok false
    ∧ retentionObserved false 0 cleanupDelay 301 = .ok false :=
  ⟨retention_deletes_after_delay true 0 301 (by decide),
   retention_deletes_after_delay false 0 301 (by decide)⟩

/-- C5: a rotate request whose angle is outside {90,180,270,-90,-180,-270}
is answered with a 400 client error and no file is written — both the
extension and the angle validations of rotate_pdf run before the try block
that stages the upload, so the angle is accepted only when it is in the
list. -/
theorem rotate_rejects_invalid_angle (filename : String) (angle : Int)
    (pages : String) (doc : Option PdfDoc) (h : angle ∉ allowedAngles) :
    (rotate_pdf filename angle pages doc).status = 400
    ∧ (rotate_pdf filename angle pages doc).filesWritten = 0 := by
  by_cases hfn : isPdfName filename = true <;> simp [rotate_pdf, hfn, h]

/-- C5 witness: angle 45 on an otherwise valid request is a 400 with no file
written. -/
theorem rotate_rejects_invalid_angle_witness :
    (rotate_pdf "a.pdf" 45 "all" (some ⟨[0], false, ""⟩)).status = 400
    ∧ (rotate_pdf "a.pdf" 45 "all" (some ⟨[0], false, ""⟩)).filesWritten = 0 :=
  rotate_rejects_invalid_angle "a.pdf" 45 "all" (some ⟨[0], false, ""⟩) (by decide)

/-- C6: a protect request whose password is shorter than 4 characters is
answered with a 400 client error and no input file is staged — the password
validation of protect_pdf runs before the try block that stages the
upload. -/
theorem protect_rejects_short_password (filename password : String)
    (doc : Option PdfDoc) (h : password.length < 4) :
    (protect_pdf filename password doc).status = 400
    ∧ (protect_pdf filename password doc).stagedWrites = 0 := by
  by_cases hfn : isPdfName filename = true <;> simp [protect_pdf, hfn, h]

/-- C6 witness: a 3-character password on an otherwise valid request is a
400 with nothing staged. -/
theorem protect_rejects_short_password_witness :
    (protect_pdf "a.pdf" "abc" (some ⟨[0], false, ""⟩)).status = 400
    ∧ (protect_pdf "a.pdf" "abc" (some ⟨[0], false, ""⟩)).stagedWrites = 0 :=
  protect_rejects_short_password "a.pdf" "abc" (some ⟨[0], false, ""⟩) (by decide)

/-- C7: an unlock request on an encrypted document with an incorrect
password is answered with a 400 client error (unlock_pdf re-raises
HTTPException unchanged, so the 400 of main.py line 451 survives the
catch-all) and no output artifact is written to the generated zone. -/
theorem unlock_wrong_password_client_error (filename password : String)
    (doc : PdfDoc) (henc : doc.encrypted = true) (hpw : password ≠ doc.password) :
    (unlock_pdf filename password doc).status = 400
    ∧ (unlock_pdf filename password doc).outputWritten = false := by
  by_cases hfn : isPdfName filename = true <;> simp [unlock_pdf, hfn, henc, hpw]

/-- C7 witness: a wrong password on an encrypted document is a 400 with no
output written. -/
theorem unlock_wrong_password_client_error_witness :
    (unlock_pdf "a.pdf" "guess" ⟨[0], true, "secret"⟩).status = 400
    ∧ (unlock_pdf "a.pdf" "guess" ⟨[0], true, "secret"⟩).outputWritten = false :=
  unlock_wrong_password_client_error "a.pdf" "guess" ⟨[0], true, "secret"⟩ rfl
    (by decide)

/-- C8 counterexample. The spec claims the pdf-to-images response depicts
the first page of the input document, but two documents whose first pages
differ produce identical response images — the handler builds the constant
612x792 white canvas of main.py line 304 and never renders any page content
onto it, so the response cannot depict the first page. -/
theorem images_output_independent_of_first_page :
    (pdf_to_images "a.pdf" (some ⟨[1], false, ""⟩) "png" true).image
      = (pdf_to_images "a.pdf" (some ⟨[2], false, ""⟩) "png" true).image
    ∧ (⟨[1], false, ""⟩ : PdfDoc).pages.head? ≠ (⟨[2], false, ""⟩ : PdfDoc).pages.head? := by
  decide

/-- C8 (amended): for every pdf-to-images request on a valid nonempty
document whose requested format PIL's save registry recognizes, the
response is a single raster image saved in that format, but it is the fixed
612x792 blank white placeholder, independent of the document's content (the
first page is accessed only to index it); when the format is not
recognized, img.save raises inside the try block and the request surfaces
as a 500 with no image. -/
theorem images_returns_blank_placeholder (filename : String) (doc : PdfDoc)
    (format : String) (hfn : isPdfName filename = true) (hp : doc.pages ≠ []) :
    ((pdf_to_images filename (some doc) format true).status = 200
      ∧ (pdf_to_images filename (some doc) format true).image = some placeholderImage
      ∧ (pdf_to_images filename (some doc) format true).savedFormat = some format)
    ∧ ((pdf_to_images filename (some doc) format false).status = 500
      ∧ (pdf_to_images filename (some doc) format false).image = none) := by
  obtain ⟨p, rest, hd⟩ : ∃ p rest, doc.pages = p :: rest := by
    cases hpp : doc.pages with
    | nil => exact absurd hpp hp
    | cons a b => exact ⟨a, b, rfl⟩
  simp [pdf_to_images, hfn, hd]

/-- C8 witness: a one-page document converted to png with the save
succeeding yields status 200, the blank placeholder image, and the
requested format. -/
theorem images_returns_blank_placeholder_witness :
    (pdf_to_images "a.pdf" (some ⟨[1], false, ""⟩) "png" true).status = 200
    ∧ (pdf_to_images "a.pdf" (some ⟨[1], false, ""⟩) "png" true).image
        = some placeholderImage
    ∧ (pdf_to_images "a.pdf" (some ⟨[1], false, ""⟩) "png" true).savedFormat
        = some "png" :=
  (images_returns_blank_placeholder "a.pdf" ⟨[1], false, ""⟩ "png" (by decide)
    (by decide)).1

/-- C9: an unlock request whose document is not encrypted skips the decrypt
check entirely, so it succeeds with status 200 for every supplied password
and the output contains the same pages as the input. -/
theorem unlock_unencrypted_ignores_password (filename password : String)
    (doc : PdfDoc) (hfn : isPdfName filename = true) (henc : doc.encrypted = false) :
    (unlock_pdf filename password doc).status = 200
    ∧ (unlock_pdf filename password doc).outputPages = some doc.pages := by
  simp [unlock_pdf, hfn, henc]

/-- C9 witness: unlocking an unencrypted two-page document with an arbitrary
password succeeds and preserves the pages. -/
theorem unlock_unencrypted_ignores_password_witness :
    (unlock_pdf "a.pdf" "anything" ⟨[1, 2], false, "x"⟩).status = 200
    ∧ (unlock_pdf "a.pdf" "anything" ⟨[1, 2], false, "x"⟩).outputPages = some [1, 2] :=
  unlock_unencrypted_ignores_password "a.pdf" "anything" ⟨[1, 2], false, "x"⟩
    (by decide) rfl

/-- C10: the overlay add_page_numbers draws on the page at zero-based index
i carries the number start_from + i, its x coordinate is half the letter
width when the position string contains "center", the width minus 50 when
it contains "right" (and not "center"), and 50 otherwise, and its y
coordinate is 30 when the position string contains "bottom" and the letter
height minus 30 otherwise. -/
theorem page_number_overlay_spec (doc : PdfDoc) (position : String)
    (startFrom : Int) (i : Nat) (hi : i < doc.pages.length) :
    (add_page_numbers doc position startFrom)[i]?
      = some ⟨startFrom + (i : Int),
              if containsStr position "center" then letterWidth / 2
              else if containsStr position "right" then letterWidth - 50
              else 50,
              if containsStr position "bottom" then 30 else letterHeight - 30⟩ := by
  unfold add_page_numbers
  rw [List.getElem?_map, List.getElem?_range hi]
  rfl

/-- C10 witness: on a two-page document with position "bottom-center" and
start_from 10, the second page's overlay carries 11 at (306, 30). -/
theorem page_number_overlay_spec_witness :
    (add_page_numbers ⟨[5, 6], false, ""⟩ "bottom-center" 10)[1]?
      = some ⟨11, 306, 30⟩ := by
  have h := page_number_overlay_spec ⟨[5, 6], false, ""⟩ "bottom-center" 10 1
    (by decide)
  rw [h]
  decide

end Wowpdf
